import Mathlib

/-!
Verification of the Enhancement Gateway (src/main.py) against its
specification.  The Python endpoints are shallowly embedded: the remote
delegate (replicate.run) is a function parameter returning
`Except String String` (error = message of the raised exception); each
endpoint returns its HTTP outcome together with the list of delegate
invocations it performed, and the file-upload endpoint additionally
returns the final state of its transient temporary file.
-/

namespace Enhancer

/-- Scale values accepted by every endpoint: the source checks membership
in the Python list [2, 4, 8]. -/
def allowedScales : List Int := [2, 4, 8]

/-- An HTTP error response, as raised via HTTPException(status_code, detail). -/
structure HTTPError where
  status_code : Nat
  detail : String
deriving Repr, DecidableEq

/-- An exception live inside an endpoint body: either an HTTPException or a
generic exception carrying its message (the delegate call raises only
generic exceptions). -/
inductive Exc where
  | http (e : HTTPError)
  | generic (msg : String)
deriving Repr, DecidableEq

/-- Python str() of an exception: starlette's HTTPException renders as
"status_code: detail"; a generic exception renders as its message. -/
def strExc : Exc → String
  | .http e => toString e.status_code ++ ": " ++ e.detail
  | .generic m => m

/-- The delegate (replicate.run): image reference and scale in, output
reference out, or a raised exception's message. -/
def Delegate : Type := String → Int → Except String String

/-- One recorded invocation of the delegate. -/
structure DelegateCall where
  image : String
  scale : Int
deriving Repr, DecidableEq

/-- Response model ImageEnhanceResponse of POST /enhance-from-url. -/
structure ImageEnhanceResponse where
  enhanced_image_url : String
  original_image_url : String
  scale : Int
  status : String
deriving Repr, DecidableEq

/-- Body (the try block) of enhance_image_from_url: validate the scale,
then perform the delegate call. -/
def enhanceFromUrlBody (run : Delegate) (image_url : String) (scale : Int) :
    Except Exc ImageEnhanceResponse × List DelegateCall :=
  if scale ∉ allowedScales then
    (.error (.http ⟨400, "Scale must be 2, 4, or 8"⟩), [])
  else
    match run image_url scale with
    | .ok output => (.ok ⟨output, image_url, scale, "success"⟩, [⟨image_url, scale⟩])
    | .error m => (.error (.generic m), [⟨image_url, scale⟩])

/-- enhance_image_from_url (POST /enhance-from-url).  The single
`except Exception` clause converts every exception e raised in the body —
including the HTTPException(400) raised for a bad scale — into
HTTPException(500, "Enhancement failed: " ++ str(e)). -/
def enhance_image_from_url (run : Delegate) (image_url : String) (scale : Int) :
    Except HTTPError ImageEnhanceResponse × List DelegateCall :=
  match enhanceFromUrlBody run image_url scale with
  | (.ok r, cs) => (.ok r, cs)
  | (.error e, cs) => (.error ⟨500, "Enhancement failed: " ++ strExc e⟩, cs)

/-- Python str.startswith(p), character by character: true when p is an
initial segment of s. -/
def charsStartWith : List Char → List Char → Bool
  | _, [] => true
  | [], _ :: _ => false
  | c :: cs, d :: ds => c == d && charsStartWith cs ds

/-- Content-type check of enhance_image_from_file:
`not file.content_type or not file.content_type.startswith("image/")`.
`none` models a missing content type (falsy in Python, hence rejected);
the empty string is falsy and also fails startswith. -/
def contentTypeOk : Option String → Bool
  | none => false
  | some s => charsStartWith s.data "image/".data

/-- State of the transient temporary file used by enhance_image_from_file. -/
structure FsState where
  temp_file_exists : Bool
deriving Repr, DecidableEq

/-- tempfile.NamedTemporaryFile(delete=False): the file now exists. -/
def createTempFile (_s : FsState) : FsState := ⟨true⟩

/-- os.unlink(temp_file_path): the file no longer exists. -/
def unlinkTempFile (_s : FsState) : FsState := ⟨false⟩

/-- Success payload of enhance_image_from_file (plain dict in the source). -/
structure FileResponse where
  enhanced_image_url : String
  original_filename : String
  scale : Int
  status : String
deriving Repr, DecidableEq

/-- Body (outer try block) of enhance_image_from_file: validate content
type then scale, write the upload to a transient temporary file, stream it
to the delegate; the inner try unlinks the file on success before
returning, and on failure (after an existence check) before re-raising. -/
def enhanceFromFileBody (run : Delegate) (content_type : Option String)
    (filename : String) (file_content : String) (scale : Int) :
    Except Exc FileResponse × List DelegateCall × FsState :=
  if ¬ contentTypeOk content_type then
    (.error (.http ⟨400, "File must be an image"⟩), [], ⟨false⟩)
  else if scale ∉ allowedScales then
    (.error (.http ⟨400, "Scale must be 2, 4, or 8"⟩), [], ⟨false⟩)
  else
    let fs1 := createTempFile ⟨false⟩
    match run file_content scale with
    | .ok output =>
        let fs2 := unlinkTempFile fs1
        (.ok ⟨output, filename, scale, "success"⟩, [⟨file_content, scale⟩], fs2)
    | .error m =>
        let fs2 := if fs1.temp_file_exists then unlinkTempFile fs1 else fs1
        (.error (.generic m), [⟨file_content, scale⟩], fs2)

/-- enhance_image_from_file (POST /enhance-from-file).  Its handlers are
`except HTTPException: raise` (HTTP errors propagate unchanged) and
`except Exception` (anything else becomes a 500 with the
"Enhancement failed: " message). -/
def enhance_image_from_file (run : Delegate) (content_type : Option String)
    (filename : String) (file_content : String) (scale : Int) :
    Except HTTPError FileResponse × List DelegateCall × FsState :=
  match enhanceFromFileBody run content_type filename file_content scale with
  | (.ok r, cs, fs) => (.ok r, cs, fs)
  | (.error (.http e), cs, fs) => (.error e, cs, fs)
  | (.error (.generic m), cs, fs) =>
      (.error ⟨500, "Enhancement failed: " ++ m⟩, cs, fs)

/-- One element of the results list of enhance_batch. -/
structure BatchSuccessItem where
  index : Nat
  original_url : String
  enhanced_url : String
  status : String
deriving Repr, DecidableEq

/-- One element of the errors list of enhance_batch. -/
structure BatchErrorItem where
  index : Nat
  original_url : String
  error : String
  status : String
deriving Repr, DecidableEq

/-- Response of enhance_batch (plain dict in the source). -/
structure BatchResponse where
  results : List BatchSuccessItem
  errors : List BatchErrorItem
  total_processed : Nat
  total_failed : Nat
  scale : Int
deriving Repr, DecidableEq

/-- The `for i, image_url in enumerate(image_urls)` loop of enhance_batch,
started at index i: each element is sent to the delegate; a success is
appended to results, a per-element exception is caught and appended to
errors, and iteration continues. -/
def batchLoop (run : Delegate) (scale : Int) :
    Nat → List String → List BatchSuccessItem × List BatchErrorItem × List DelegateCall
  | _, [] => ([], [], [])
  | i, url :: rest =>
    let tail := batchLoop run scale (i + 1) rest
    match run url scale with
    | .ok output =>
        (⟨i, url, output, "success"⟩ :: tail.1, tail.2.1, ⟨url, scale⟩ :: tail.2.2)
    | .error m =>
        (tail.1, ⟨i, url, m, "failed"⟩ :: tail.2.1, ⟨url, scale⟩ :: tail.2.2)

/-- enhance_batch (POST /enhance-batch): reject batches larger than 10,
then bad scales, then run the sequential loop; total_processed and
total_failed are the lengths of the two collected lists. -/
def enhance_batch (run : Delegate) (image_urls : List String) (scale : Int) :
    Except HTTPError BatchResponse × List DelegateCall :=
  if image_urls.length > 10 then
    (.error ⟨400, "Batch size limited to 10 images"⟩, [])
  else if scale ∉ allowedScales then
    (.error ⟨400, "Scale must be 2, 4, or 8"⟩, [])
  else
    let out := batchLoop run scale 0 image_urls
    (.ok ⟨out.1, out.2.1, out.1.length, out.2.1.length, scale⟩, out.2.2)

/-! ### Facts about the batch loop -/

/-- The loop visits every element: one delegate call per element, and each
element ends up in exactly one of the two collected lists. -/
lemma batchLoop_length (run : Delegate) (scale : Int) :
    ∀ (l : List String) (i : Nat),
      (batchLoop run scale i l).1.length + (batchLoop run scale i l).2.1.length
        = l.length := by
  intro l
  induction l with
  | nil => intro i; rfl
  | cons url rest ih =>
    intro i
    have h := ih (i + 1)
    unfold batchLoop
    cases hrun : run url scale <;> simp only [] <;> simp [hrun] <;> omega

/-- An element on which the delegate fails is recorded in the errors list
with its (offset) index, its original URL and the failure message. -/
lemma batchLoop_mem_errors (run : Delegate) (scale : Int) :
    ∀ (l : List String) (i k : Nat) (hk : k < l.length) (m : String),
      run (l.get ⟨k, hk⟩) scale = .error m →
        (⟨i + k, l.get ⟨k, hk⟩, m, "failed"⟩ : BatchErrorItem)
          ∈ (batchLoop run scale i l).2.1 := by
  intro l
  induction l with
  | nil => intro i k hk; exact absurd hk (by simp)
  | cons url rest ih =>
    intro i k hk m hrun
    unfold batchLoop
    cases k with
    | zero =>
      simp only [List.get] at hrun
      simp [hrun]
    | succ j =>
      have hj : j < rest.length := by
        simpa [Nat.succ_lt_succ_iff] using hk
      have hmem := ih (i + 1) j hj m (by simpa using hrun)
      have hidx : i + 1 + j = i + (j + 1) := by omega
      rw [hidx] at hmem
      cases hrun2 : run url scale <;> simpa [hrun2] using hmem

/-- An element on which the delegate succeeds is recorded in the results
list with its (offset) index, its original URL and the delegate output. -/
lemma batchLoop_mem_results (run : Delegate) (scale : Int) :
    ∀ (l : List String) (i k : Nat) (hk : k < l.length) (out : String),
      run (l.get ⟨k, hk⟩) scale = .ok out →
        (⟨i + k, l.get ⟨k, hk⟩, out, "success"⟩ : BatchSuccessItem)
          ∈ (batchLoop run scale i l).1 := by
  intro l
  induction l with
  | nil => intro i k hk; exact absurd hk (by simp)
  | cons url rest ih =>
    intro i k hk out hrun
    unfold batchLoop
    cases k with
    | zero =>
      simp only [List.get] at hrun
      simp [hrun]
    | succ j =>
      have hj : j < rest.length := by
        simpa [Nat.succ_lt_succ_iff] using hk
      have hmem := ih (i + 1) j hj out (by simpa using hrun)
      have hidx : i + 1 + j = i + (j + 1) := by omega
      rw [hidx] at hmem
      cases hrun2 : run url scale <;> simpa [hrun2] using hmem

/-- Indices in the results list are at least the starting index and appear
in strictly increasing order. -/
lemma batchLoop_results_sorted (run : Delegate) (scale : Int) :
    ∀ (l : List String) (i : Nat),
      (∀ x ∈ (batchLoop run scale i l).1, i ≤ x.index)
      ∧ ((batchLoop run scale i l).1.map BatchSuccessItem.index).Sorted (· < ·) := by
  intro l
  induction l with
  | nil => intro i; exact ⟨by simp [batchLoop], by simp [batchLoop]⟩
  | cons url rest ih =>
    intro i
    obtain ⟨ihb, ihs⟩ := ih (i + 1)
    unfold batchLoop
    cases hrun : run url scale with
    | ok out =>
      refine ⟨?_, ?_⟩
      · intro x hx
        simp [hrun] at hx
        rcases hx with h | h
        · rw [h]
        · exact Nat.le_of_succ_le (ihb x h)
      · simp only [hrun]
        rw [List.map_cons, List.sorted_cons]
        exact ⟨fun b hb => by
          obtain ⟨x, hx, hxb⟩ := List.mem_map.mp hb
          have h2 := ihb x hx
          show i < b
          omega, ihs⟩
    | error m =>
      refine ⟨?_, ?_⟩
      · intro x hx
        simp [hrun] at hx
        exact Nat.le_of_succ_le (ihb x hx)
      · simpa [hrun] using ihs

/-- Indices in the errors list are at least the starting index and appear
in strictly increasing order. -/
lemma batchLoop_errors_sorted (run : Delegate) (scale : Int) :
    ∀ (l : List String) (i : Nat),
      (∀ x ∈ (batchLoop run scale i l).2.1, i ≤ x.index)
      ∧ ((batchLoop run scale i l).2.1.map BatchErrorItem.index).Sorted (· < ·) := by
  intro l
  induction l with
  | nil => intro i; exact ⟨by simp [batchLoop], by simp [batchLoop]⟩
  | cons url rest ih =>
    intro i
    obtain ⟨ihb, ihs⟩ := ih (i + 1)
    unfold batchLoop
    cases hrun : run url scale with
    | error m =>
      refine ⟨?_, ?_⟩
      · intro x hx
        simp [hrun] at hx
        rcases hx with h | h
        · rw [h]
        · exact Nat.le_of_succ_le (ihb x h)
      · simp only [hrun]
        rw [List.map_cons, List.sorted_cons]
        exact ⟨fun b hb => by
          obtain ⟨x, hx, hxb⟩ := List.mem_map.mp hb
          have h2 := ihb x hx
          show i < b
          omega, ihs⟩
    | ok out =>
      refine ⟨?_, ?_⟩
      · intro x hx
        simp [hrun] at hx
        exact Nat.le_of_succ_le (ihb x hx)
      · simpa [hrun] using ihs

/-! ### Claim theorems -/

/-- C1: the claim says a scale outside {2,4,8} makes enhanceFromUrl fail
with a 400-equivalent.  The code raises HTTPException(400) but its blanket
`except Exception` clause re-wraps it, so with scale 3 the endpoint
responds 500 with the 400 message embedded in the detail: the code
contradicts the intended client-error class. -/
theorem C1_bad_scale_maps_to_500 :
    enhance_image_from_url (fun _ _ => .ok "https://cdn/out.png") "https://x/img.png" 3
      = (.error ⟨500, "Enhancement failed: 400: Scale must be 2, 4, or 8"⟩, []) := by
  rfl

/-- C2 counterexample: with a delegate failing with message "boom", the
failure detail of enhanceFromUrl is "Enhancement failed: boom", which is
not the underlying cause's message verbatim with no additional text. -/
theorem C2_counterexample :
    (enhance_image_from_url (fun _ _ => .error "boom") "https://x/img.png" 2).1
      = .error ⟨500, "Enhancement failed: boom"⟩
    ∧ "Enhancement failed: boom" ≠ "boom" := by
  exact ⟨rfl, by decide⟩

/-- C2 amended: when the delegate fails with message m on a valid scale,
enhanceFromUrl fails with status 500 and detail "Enhancement failed: "
followed by m verbatim. -/
theorem C2_upstream_message_prefixed (run : Delegate) (url : String) (scale : Int)
    (m : String) (hscale : scale ∈ allowedScales) (hrun : run url scale = .error m) :
    (enhance_image_from_url run url scale).1
      = .error ⟨500, "Enhancement failed: " ++ m⟩ := by
  unfold enhance_image_from_url enhanceFromUrlBody
  rw [if_neg (by simp [hscale]), hrun]
  rfl

theorem C2_upstream_message_prefixed_witness :
    (enhance_image_from_url (fun _ _ => .error "oops") "https://x/a.png" 2).1
      = .error ⟨500, "Enhancement failed: oops"⟩ :=
  C2_upstream_message_prefixed (fun _ _ => .error "oops") "https://x/a.png" 2 "oops"
    (by decide) rfl

/-- C3: for a batch of at most 10 URLs with a valid scale, the call
succeeds (a per-item delegate failure never aborts the loop);
total_processed + total_failed equals the number of URLs; every failing
index appears in the errors list with its original URL and the failure
message; every succeeding index appears in the results list with its
original URL and output; and the indices of both output lists are in
strictly ascending input order. -/
theorem C3_batch_partial_failure (run : Delegate) (image_urls : List String)
    (scale : Int) (hlen : image_urls.length ≤ 10) (hscale : scale ∈ allowedScales) :
    ∃ resp, (enhance_batch run image_urls scale).1 = .ok resp
      ∧ resp.total_processed + resp.total_failed = image_urls.length
      ∧ (∀ (k : Nat) (hk : k < image_urls.length) (m : String),
          run (image_urls.get ⟨k, hk⟩) scale = .error m →
            (⟨k, image_urls.get ⟨k, hk⟩, m, "failed"⟩ : BatchErrorItem) ∈ resp.errors)
      ∧ (∀ (k : Nat) (hk : k < image_urls.length) (out : String),
          run (image_urls.get ⟨k, hk⟩) scale = .ok out →
            (⟨k, image_urls.get ⟨k, hk⟩, out, "success"⟩ : BatchSuccessItem)
              ∈ resp.results)
      ∧ (resp.results.map BatchSuccessItem.index).Sorted (· < ·)
      ∧ (resp.errors.map BatchErrorItem.index).Sorted (· < ·) := by
  have hresp : enhance_batch run image_urls scale
      = (.ok ⟨(batchLoop run scale 0 image_urls).1,
          (batchLoop run scale 0 image_urls).2.1,
          (batchLoop run scale 0 image_urls).1.length,
          (batchLoop run scale 0 image_urls).2.1.length, scale⟩,
         (batchLoop run scale 0 image_urls).2.2) := by
    unfold enhance_batch
    rw [if_neg (by omega), if_neg (by simp [hscale])]
  refine ⟨⟨(batchLoop run scale 0 image_urls).1,
      (batchLoop run scale 0 image_urls).2.1,
      (batchLoop run scale 0 image_urls).1.length,
      (batchLoop run scale 0 image_urls).2.1.length, scale⟩,
    ?_, ?_, ?_, ?_, ?_, ?_⟩
  · rw [hresp]
  · exact batchLoop_length run scale image_urls 0
  · intro k hk m hrun
    simpa using batchLoop_mem_errors run scale image_urls 0 k hk m hrun
  · intro k hk out hrun
    simpa using batchLoop_mem_results run scale image_urls 0 k hk out hrun
  · exact (batchLoop_results_sorted run scale image_urls 0).2
  · exact (batchLoop_errors_sorted run scale image_urls 0).2

theorem C3_batch_partial_failure_witness :
    ∃ resp, (enhance_batch
        (fun u _ => if u = "u1" then Except.error "down" else Except.ok ("big-" ++ u))
        ["u0", "u1", "u2"] 2).1 = .ok resp
      ∧ resp.total_processed + resp.total_failed = (["u0", "u1", "u2"] : List String).length
      ∧ (∀ (k : Nat) (hk : k < (["u0", "u1", "u2"] : List String).length) (m : String),
          (fun u _ => if u = "u1" then Except.error "down" else Except.ok ("big-" ++ u))
              ((["u0", "u1", "u2"] : List String).get ⟨k, hk⟩) (2 : Int) = .error m →
            (⟨k, (["u0", "u1", "u2"] : List String).get ⟨k, hk⟩, m, "failed"⟩
              : BatchErrorItem) ∈ resp.errors)
      ∧ (∀ (k : Nat) (hk : k < (["u0", "u1", "u2"] : List String).length) (out : String),
          (fun u _ => if u = "u1" then Except.error "down" else Except.ok ("big-" ++ u))
              ((["u0", "u1", "u2"] : List String).get ⟨k, hk⟩) (2 : Int) = .ok out →
            (⟨k, (["u0", "u1", "u2"] : List String).get ⟨k, hk⟩, out, "success"⟩
              : BatchSuccessItem) ∈ resp.results)
      ∧ (resp.results.map BatchSuccessItem.index).Sorted (· < ·)
      ∧ (resp.errors.map BatchErrorItem.index).Sorted (· < ·) :=
  C3_batch_partial_failure
    (fun u _ => if u = "u1" then Except.error "down" else Except.ok ("big-" ++ u))
    ["u0", "u1", "u2"] 2 (by decide) (by decide)

/-- C4: after any call to enhance_image_from_file, the transient temporary
file no longer exists: the success path unlinks it before returning and
the failure path unlinks it before the error propagates; on the validation
paths it was never created. -/
theorem C4_temp_file_released (run : Delegate) (content_type : Option String)
    (filename : String) (file_content : String) (scale : Int) :
    (enhance_image_from_file run content_type filename file_content scale).2.2
      = ⟨false⟩ := by
  unfold enhance_image_from_file enhanceFromFileBody
  by_cases hct : contentTypeOk content_type
  · by_cases hs : scale ∈ allowedScales
    · cases hrun : run file_content scale <;>
        simp [hct, hs, hrun, createTempFile, unlinkTempFile]
    · simp [hct, hs]
  · simp [hct]

/-- C5: for any scale outside {2,4,8}, each of the three enhancement
operations returns an error and performs zero delegate calls. -/
theorem C5_invalid_scale_never_calls_delegate (run : Delegate) (url : String)
    (content_type : Option String) (filename : String) (file_content : String)
    (image_urls : List String) (scale : Int) (hscale : scale ∉ allowedScales) :
    ((∃ e, (enhance_image_from_url run url scale).1 = .error e)
      ∧ (enhance_image_from_url run url scale).2 = [])
    ∧ ((∃ e, (enhance_image_from_file run content_type filename file_content scale).1
          = .error e)
      ∧ (enhance_image_from_file run content_type filename file_content scale).2.1 = [])
    ∧ ((∃ e, (enhance_batch run image_urls scale).1 = .error e)
      ∧ (enhance_batch run image_urls scale).2 = []) := by
  have h1 : enhance_image_from_url run url scale
      = (.error ⟨500, "Enhancement failed: 400: Scale must be 2, 4, or 8"⟩, []) := by
    unfold enhance_image_from_url enhanceFromUrlBody
    rw [if_pos hscale]
    rfl
  have h2 : ∃ e, enhance_image_from_file run content_type filename file_content scale
      = (.error e, [], ⟨false⟩) := by
    unfold enhance_image_from_file enhanceFromFileBody
    by_cases hct : contentTypeOk content_type
    · refine ⟨⟨400, "Scale must be 2, 4, or 8"⟩, ?_⟩
      rw [if_neg (by simp [hct]), if_pos hscale]
    · refine ⟨⟨400, "File must be an image"⟩, ?_⟩
      rw [if_pos (by simp [hct])]
  have h3 : ∃ e, enhance_batch run image_urls scale = (.error e, []) := by
    unfold enhance_batch
    by_cases hlen : image_urls.length > 10
    · exact ⟨⟨400, "Batch size limited to 10 images"⟩, by rw [if_pos hlen]⟩
    · exact ⟨⟨400, "Scale must be 2, 4, or 8"⟩, by rw [if_neg hlen, if_pos hscale]⟩
  obtain ⟨e2, h2⟩ := h2
  obtain ⟨e3, h3⟩ := h3
  exact ⟨⟨⟨_, by rw [h1]⟩, by rw [h1]⟩, ⟨⟨e2, by rw [h2]⟩, by rw [h2]⟩,
    ⟨e3, by rw [h3]⟩, by rw [h3]⟩

theorem C5_invalid_scale_never_calls_delegate_witness :
    (((∃ e, (enhance_image_from_url (fun _ _ => .ok "o") "u" 3).1 = .error e)
      ∧ (enhance_image_from_url (fun _ _ => .ok "o") "u" 3).2 = [])
    ∧ ((∃ e, (enhance_image_from_file (fun _ _ => .ok "o") (some "image/png") "f.png" "c" 3).1
          = .error e)
      ∧ (enhance_image_from_file (fun _ _ => .ok "o") (some "image/png") "f.png" "c" 3).2.1 = [])
    ∧ ((∃ e, (enhance_batch (fun _ _ => .ok "o") ["u"] 3).1 = .error e)
      ∧ (enhance_batch (fun _ _ => .ok "o") ["u"] 3).2 = [])) :=
  C5_invalid_scale_never_calls_delegate (fun _ _ => .ok "o") "u" (some "image/png")
    "f.png" "c" ["u"] 3 (by decide)

/-- C6: on delegate success, enhance_image_from_file returns
{enhanced_image_url: the delegate output, original_filename: the upload's
filename, scale, status "success"} — the enhanceFromUrl result shape with
the filename as the original reference — and its enhanced-URL, scale and
status fields coincide with those of the enhance_image_from_url response
built from the same delegate output. -/
theorem C6_file_success_shape (run : Delegate) (ct : String)
    (filename file_content : String) (scale : Int) (out : String)
    (hct : contentTypeOk (some ct) = true) (hscale : scale ∈ allowedScales)
    (hrun : run file_content scale = .ok out) :
    (enhance_image_from_file run (some ct) filename file_content scale).1
      = .ok ⟨out, filename, scale, "success"⟩
    ∧ ∀ (run2 : Delegate) (url : String), run2 url scale = .ok out →
        ∃ r, (enhance_image_from_url run2 url scale).1 = .ok r
          ∧ r.enhanced_image_url = out ∧ r.scale = scale ∧ r.status = "success"
          ∧ (enhance_image_from_file run (some ct) filename file_content scale).1
              = .ok ⟨r.enhanced_image_url, filename, r.scale, r.status⟩ := by
  have hfile : (enhance_image_from_file run (some ct) filename file_content scale).1
      = .ok ⟨out, filename, scale, "success"⟩ := by
    unfold enhance_image_from_file enhanceFromFileBody
    rw [if_neg (by simp [hct]), if_neg (by simp [hscale]), hrun]
  refine ⟨hfile, fun run2 url hrun2 => ⟨⟨out, url, scale, "success"⟩, ?_, rfl, rfl, rfl, hfile⟩⟩
  unfold enhance_image_from_url enhanceFromUrlBody
  rw [if_neg (by simp [hscale]), hrun2]

theorem C6_file_success_shape_witness :
    ((enhance_image_from_file (fun _ _ => .ok "https://cdn/out.png") (some "image/png")
        "a.png" "BYTES" 2).1
      = .ok ⟨"https://cdn/out.png", "a.png", 2, "success"⟩
    ∧ ∀ (run2 : Delegate) (url : String), run2 url 2 = .ok "https://cdn/out.png" →
        ∃ r, (enhance_image_from_url run2 url 2).1 = .ok r
          ∧ r.enhanced_image_url = "https://cdn/out.png" ∧ r.scale = 2
          ∧ r.status = "success"
          ∧ (enhance_image_from_file (fun _ _ => .ok "https://cdn/out.png")
                (some "image/png") "a.png" "BYTES" 2).1
              = .ok ⟨r.enhanced_image_url, "a.png", r.scale, r.status⟩) :=
  C6_file_success_shape (fun _ _ => .ok "https://cdn/out.png") "image/png" "a.png"
    "BYTES" 2 "https://cdn/out.png" (by decide) (by decide) rfl

/-- C7: a batch of more than 10 URLs fails with HTTPException(400,
"Batch size limited to 10 images") and performs zero delegate calls. -/
theorem C7_batch_too_large (run : Delegate) (image_urls : List String) (scale : Int)
    (hlen : image_urls.length > 10) :
    enhance_batch run image_urls scale
      = (.error ⟨400, "Batch size limited to 10 images"⟩, []) := by
  unfold enhance_batch
  rw [if_pos hlen]

theorem C7_batch_too_large_witness :
    enhance_batch (fun _ _ => .ok "o") (List.replicate 11 "u") 2
      = (.error ⟨400, "Batch size limited to 10 images"⟩, []) :=
  C7_batch_too_large (fun _ _ => .ok "o") (List.replicate 11 "u") 2 (by decide)

/-- C8: an upload whose content type does not begin with "image/" (or is
missing) makes enhance_image_from_file fail with HTTPException(400,
"File must be an image"), with zero delegate calls and no transient file
left behind. -/
theorem C8_bad_content_type (run : Delegate) (content_type : Option String)
    (filename : String) (file_content : String) (scale : Int)
    (hct : contentTypeOk content_type = false) :
    enhance_image_from_file run content_type filename file_content scale
      = (.error ⟨400, "File must be an image"⟩, [], ⟨false⟩) := by
  unfold enhance_image_from_file enhanceFromFileBody
  rw [if_pos (by simp [hct])]

theorem C8_bad_content_type_witness :
    enhance_image_from_file (fun _ _ => .ok "o") (some "text/plain") "f.txt" "c" 2
      = (.error ⟨400, "File must be an image"⟩, [], ⟨false⟩) :=
  C8_bad_content_type (fun _ _ => .ok "o") (some "text/plain") "f.txt" "c" 2 (by decide)

/-- C9: on a valid scale, when the delegate succeeds with output r,
enhance_image_from_url returns exactly {enhanced_image_url: r,
original_image_url: the input URL, scale: the input scale,
status: "success"}, after exactly one delegate call. -/
theorem C9_url_success (run : Delegate) (url : String) (scale : Int) (out : String)
    (hscale : scale ∈ allowedScales) (hrun : run url scale = .ok out) :
    enhance_image_from_url run url scale
      = (.ok ⟨out, url, scale, "success"⟩, [⟨url, scale⟩]) := by
  unfold enhance_image_from_url enhanceFromUrlBody
  rw [if_neg (by simp [hscale]), hrun]

theorem C9_url_success_witness :
    enhance_image_from_url (fun _ _ => .ok "https://cdn/out.png") "https://x/img.png" 4
      = (.ok ⟨"https://cdn/out.png", "https://x/img.png", 4, "success"⟩,
         [⟨"https://x/img.png", 4⟩]) :=
  C9_url_success (fun _ _ => .ok "https://cdn/out.png") "https://x/img.png" 4
    "https://cdn/out.png" (by decide) rfl

/-- C10: an empty batch with a valid scale succeeds with empty results and
errors, zero counts, the given scale, and zero delegate calls. -/
theorem C10_empty_batch (run : Delegate) (scale : Int)
    (hscale : scale ∈ allowedScales) :
    enhance_batch run [] scale = (.ok ⟨[], [], 0, 0, scale⟩, []) := by
  unfold enhance_batch
  rw [if_neg (by decide), if_neg (by simp [hscale])]
  rfl

theorem C10_empty_batch_witness :
    enhance_batch (fun _ _ => .ok "o") [] 2 = (.ok ⟨[], [], 0, 0, 2⟩, []) :=
  C10_empty_batch (fun _ _ => .ok "o") 2 (by decide)

end Enhancer
